import Mathlib

/-!
Verification of the APT-variant scoring engine against its design spec.

The development shallowly embeds the two scoring implementations of the
repository:

* `evaluate_apt_variants.py`  (the "v1" rule set): `evaluate_logical_coherence`,
  `evaluate_operational_realism`, `infer_objective_from_sequence`,
  `evaluate_same_objective`;
* `score_apt_variants_v2.py`  (the "v2" rule set): `score_logical_coherence`,
  `score_operational_realism`, `determine_same_objective`.

Modelling conventions:

* A free-form sequence field is an `Option String`; `none` models a missing
  (NaN) cell, mirroring the `pd.isna(sequence) or sequence == ''` guards.
* `re.findall(r'T\d{4}(?:\.\d{3})?', s)` is embedded as a character-level
  left-to-right scanner (`findTechs`) with the same non-overlapping,
  greedy-optional-suffix semantics.
* Python dict literals with repeated keys keep the last binding, so a dict
  is embedded as its association list in source order and `dictGet` returns
  the last matching entry (`reverse.find?`).
* v1's float comparisons `violations <= max_violations * c` are embedded
  bit-exactly: each decimal constant is replaced by the IEEE-754 double
  nearest to it, written as an exact dyadic rational; the int-to-float
  conversion of `max_violations` and the product are rounded to
  nearest-even (`flDyadic`); and Python's exact int-to-float comparison
  `v <= X` becomes `v ≤ ⌊X⌋` (`pyFloatMulFloor`), exact for an integer
  `v`.  The float `violation_ratio` of v2 divides first, and its rounded
  quotient compared against the rounded constants coincides with the
  exact rational comparison at every transition count attainable below
  astronomical input sizes, so the v2 thresholds are embedded
  cross-multiplied (e.g. `ratio <= 0.05` as `20 * violations <=
  total_transitions`).
* The direct dict indexing `TACTIC_ORDER[t]` of v2 (which can raise
  `KeyError`) is embedded as an `Option`-valued lookup; `none` models the
  exception, so `score_logical_coherence` returns `Option Int`.
-/

/-- Extract the characters of one technique token starting at the given
position, mirroring one match attempt of `T\d{4}(?:\.\d{3})?`, and scan the
whole character list left to right exactly as `re.findall` does: on a match
the scan resumes after the matched token, on a mismatch it advances one
character.  Fuel-based so that the kernel can evaluate it; `findTechs`
supplies `cs.length` as fuel, which always suffices. -/
def findTechsAux : Nat → List Char → List String
  | 0, _ => []
  | _ + 1, [] => []
  | fuel + 1, c :: cs =>
    match c, cs with
    | 'T', d1 :: d2 :: d3 :: d4 :: rest =>
      if d1.isDigit && d2.isDigit && d3.isDigit && d4.isDigit then
        match rest with
        | '.' :: e1 :: e2 :: e3 :: rest2 =>
          if e1.isDigit && e2.isDigit && e3.isDigit then
            String.mk ['T', d1, d2, d3, d4, '.', e1, e2, e3] :: findTechsAux fuel rest2
          else
            String.mk ['T', d1, d2, d3, d4] :: findTechsAux fuel rest
        | _ =>
          String.mk ['T', d1, d2, d3, d4] :: findTechsAux fuel rest
      else
        findTechsAux fuel (d1 :: d2 :: d3 :: d4 :: rest)
    | _, _ => findTechsAux fuel cs

/-- All matches of `T\d{4}(?:\.\d{3})?` in a character list, in order of
first appearance, duplicates retained. -/
def findTechs (cs : List Char) : List String :=
  findTechsAux cs.length cs

/-- Shared by both scripts: `extract_techniques(sequence)`. A missing or
empty field yields no techniques; otherwise all `T####`/`T####.###` tokens
are collected. -/
def extract_techniques (s : Option String) : List String :=
  match s with
  | none => []
  | some str => if str = "" then [] else findTechs str.data

/-- The `technique.split('.')[0]` step: drop a sub-technique suffix. -/
def baseTechnique (t : String) : String :=
  String.mk (t.data.takeWhile (fun c => c != '.'))

/-- Python `dict.get(k, d)` over a dict literal given as an association list
in source order; repeated keys keep the last binding, so the reversed list
is searched for the first match. -/
def dictGet {α : Type} (m : List (String × α)) (k : String) (d : α) : α :=
  match m.reverse.find? (fun p => p.1 == k) with
  | some p => p.2
  | none => d

/-- Truthiness of a Python set intersection: the two lists share an
element. -/
def hasCommon (a b : List String) : Bool :=
  a.any (fun x => b.contains x)

/-! ### Static tables of `evaluate_apt_variants.py` (v1) -/

def TACTIC_ORDER_V1 : List (String × Int) := [
  ("reconnaissance", 0),
  ("resource-development", 1),
  ("initial-access", 2),
  ("execution", 3),
  ("persistence", 4),
  ("privilege-escalation", 5),
  ("defense-evasion", 6),
  ("credential-access", 7),
  ("discovery", 8),
  ("lateral-movement", 9),
  ("collection", 10),
  ("command-and-control", 11),
  ("exfiltration", 12),
  ("impact", 13)]

def TECHNIQUE_TACTIC_MAP : List (String × String) := [
  ("T1595", "reconnaissance"),
  ("T1594", "reconnaissance"),
  ("T1593", "reconnaissance"),
  ("T1592", "reconnaissance"),
  ("T1590", "reconnaissance"),
  ("T1591", "reconnaissance"),
  ("T1589", "reconnaissance"),
  ("T1598", "reconnaissance"),
  ("T1583", "resource-development"),
  ("T1586", "resource-development"),
  ("T1584", "resource-development"),
  ("T1587", "resource-development"),
  ("T1585", "resource-development"),
  ("T1588", "resource-development"),
  ("T1189", "initial-access"),
  ("T1190", "initial-access"),
  ("T1133", "initial-access"),
  ("T1200", "initial-access"),
  ("T1566", "initial-access"),
  ("T1091", "initial-access"),
  ("T1195", "initial-access"),
  ("T1199", "initial-access"),
  ("T1078", "initial-access"),
  ("T1059", "execution"),
  ("T1106", "execution"),
  ("T1203", "execution"),
  ("T1559", "execution"),
  ("T1569", "execution"),
  ("T1204", "execution"),
  ("T1047", "execution"),
  ("T1053", "execution"),
  ("T1072", "execution"),
  ("T1098", "persistence"),
  ("T1197", "persistence"),
  ("T1547", "persistence"),
  ("T1037", "persistence"),
  ("T1136", "persistence"),
  ("T1543", "persistence"),
  ("T1505", "persistence"),
  ("T1542", "persistence"),
  ("T1554", "persistence"),
  ("T1053", "persistence"),
  ("T1133", "persistence"),
  ("T1078", "persistence"),
  ("T1134", "privilege-escalation"),
  ("T1548", "privilege-escalation"),
  ("T1547", "privilege-escalation"),
  ("T1037", "privilege-escalation"),
  ("T1543", "privilege-escalation"),
  ("T1068", "privilege-escalation"),
  ("T1574", "privilege-escalation"),
  ("T1055", "privilege-escalation"),
  ("T1053", "privilege-escalation"),
  ("T1078", "privilege-escalation"),
  ("T1548", "defense-evasion"),
  ("T1134", "defense-evasion"),
  ("T1197", "defense-evasion"),
  ("T1140", "defense-evasion"),
  ("T1480", "defense-evasion"),
  ("T1211", "defense-evasion"),
  ("T1222", "defense-evasion"),
  ("T1564", "defense-evasion"),
  ("T1574", "defense-evasion"),
  ("T1562", "defense-evasion"),
  ("T1070", "defense-evasion"),
  ("T1202", "defense-evasion"),
  ("T1036", "defense-evasion"),
  ("T1556", "defense-evasion"),
  ("T1578", "defense-evasion"),
  ("T1112", "defense-evasion"),
  ("T1027", "defense-evasion"),
  ("T1647", "defense-evasion"),
  ("T1055", "defense-evasion"),
  ("T1542", "defense-evasion"),
  ("T1620", "defense-evasion"),
  ("T1207", "defense-evasion"),
  ("T1218", "defense-evasion"),
  ("T1216", "defense-evasion"),
  ("T1553", "defense-evasion"),
  ("T1221", "defense-evasion"),
  ("T1205", "defense-evasion"),
  ("T1127", "defense-evasion"),
  ("T1535", "defense-evasion"),
  ("T1078", "defense-evasion"),
  ("T1497", "defense-evasion"),
  ("T1600", "defense-evasion"),
  ("T1601", "defense-evasion"),
  ("T1110", "credential-access"),
  ("T1555", "credential-access"),
  ("T1212", "credential-access"),
  ("T1187", "credential-access"),
  ("T1606", "credential-access"),
  ("T1056", "credential-access"),
  ("T1556", "credential-access"),
  ("T1111", "credential-access"),
  ("T1621", "credential-access"),
  ("T1040", "credential-access"),
  ("T1003", "credential-access"),
  ("T1528", "credential-access"),
  ("T1558", "credential-access"),
  ("T1539", "credential-access"),
  ("T1087", "discovery"),
  ("T1010", "discovery"),
  ("T1217", "discovery"),
  ("T1580", "discovery"),
  ("T1538", "discovery"),
  ("T1526", "discovery"),
  ("T1482", "discovery"),
  ("T1083", "discovery"),
  ("T1615", "discovery"),
  ("T1046", "discovery"),
  ("T1135", "discovery"),
  ("T1040", "discovery"),
  ("T1201", "discovery"),
  ("T1120", "discovery"),
  ("T1069", "discovery"),
  ("T1057", "discovery"),
  ("T1012", "discovery"),
  ("T1018", "discovery"),
  ("T1518", "discovery"),
  ("T1082", "discovery"),
  ("T1614", "discovery"),
  ("T1016", "discovery"),
  ("T1049", "discovery"),
  ("T1033", "discovery"),
  ("T1007", "discovery"),
  ("T1124", "discovery"),
  ("T1497", "discovery"),
  ("T1622", "discovery"),
  ("T1210", "lateral-movement"),
  ("T1534", "lateral-movement"),
  ("T1570", "lateral-movement"),
  ("T1563", "lateral-movement"),
  ("T1021", "lateral-movement"),
  ("T1091", "lateral-movement"),
  ("T1072", "lateral-movement"),
  ("T1080", "lateral-movement"),
  ("T1550", "lateral-movement"),
  ("T1560", "collection"),
  ("T1123", "collection"),
  ("T1119", "collection"),
  ("T1185", "collection"),
  ("T1115", "collection"),
  ("T1530", "collection"),
  ("T1602", "collection"),
  ("T1213", "collection"),
  ("T1005", "collection"),
  ("T1039", "collection"),
  ("T1025", "collection"),
  ("T1074", "collection"),
  ("T1114", "collection"),
  ("T1113", "collection"),
  ("T1125", "collection"),
  ("T1071", "command-and-control"),
  ("T1092", "command-and-control"),
  ("T1132", "command-and-control"),
  ("T1001", "command-and-control"),
  ("T1568", "command-and-control"),
  ("T1573", "command-and-control"),
  ("T1008", "command-and-control"),
  ("T1105", "command-and-control"),
  ("T1104", "command-and-control"),
  ("T1095", "command-and-control"),
  ("T1571", "command-and-control"),
  ("T1572", "command-and-control"),
  ("T1090", "command-and-control"),
  ("T1219", "command-and-control"),
  ("T1205", "command-and-control"),
  ("T1102", "command-and-control"),
  ("T1020", "exfiltration"),
  ("T1030", "exfiltration"),
  ("T1048", "exfiltration"),
  ("T1041", "exfiltration"),
  ("T1011", "exfiltration"),
  ("T1052", "exfiltration"),
  ("T1567", "exfiltration"),
  ("T1029", "exfiltration"),
  ("T1537", "exfiltration"),
  ("T1531", "impact"),
  ("T1485", "impact"),
  ("T1486", "impact"),
  ("T1565", "impact"),
  ("T1491", "impact"),
  ("T1561", "impact"),
  ("T1499", "impact"),
  ("T1495", "impact"),
  ("T1490", "impact"),
  ("T1498", "impact"),
  ("T1496", "impact"),
  ("T1489", "impact"),
  ("T1529", "impact")]

def APT_OBJECTIVES_V1 : List (String × List String) := [
  ("APT41", ["espionage", "financial-gain"]),
  ("Turla", ["espionage"]),
  ("MuddyWater", ["espionage", "disruption", "ransomware"]),
  ("APT39", ["espionage", "credential-theft"]),
  ("Lazarus_Group", ["financial-gain", "disruption", "ransomware"]),
  ("APT28", ["espionage", "information-warfare"]),
  ("Cobalt_Group", ["financial-theft"]),
  ("APT31", ["espionage"]),
  ("APT37", ["espionage"]),
  ("APT29", ["espionage"]),
  ("APT38", ["financial-theft"]),
  ("BRONZEBUTLER", ["espionage"]),
  ("Kimsuky", ["espionage", "credential-harvesting"]),
  ("Dragonfly", ["espionage", "ics-targeting"]),
  ("Sandworm_Team", ["disruption", "ransomware", "ics-disruption"]),
  ("Aquatic_Panda", ["espionage", "supply-chain"]),
  ("Wizard_Spider", ["ransomware"]),
  ("FIN7", ["financial-theft"]),
  ("APT3", ["espionage"])]

/-! ### v1 scoring functions -/

/-- v1 `get_tactic_for_technique`: strip the sub-technique suffix and look
the base code up, defaulting to `unknown`. -/
def get_tactic_for_technique (technique : String) : String :=
  dictGet TECHNIQUE_TACTIC_MAP (baseTechnique technique) "unknown"

/-- The tactic list `[get_tactic_for_technique(t) for t in techniques]`
computed by the v1 scorers (unknowns retained). -/
def tacticsOfV1 (s : Option String) : List String :=
  (extract_techniques s).map get_tactic_for_technique

/-- v1 line 185: `[TACTIC_ORDER.get(t, -1) for t in tactics if t != 'unknown']`. -/
def tacticOrderValuesV1 (tactics : List String) : List Int :=
  (tactics.filter (fun t => t != "unknown")).map (fun t => dictGet TACTIC_ORDER_V1 t (-1))

/-- v1 lines 191-199: each decreasing consecutive pair counts 2 when the
backward step exceeds 3 (major) and 1 otherwise (minor). -/
def countViolationsV1 : List Int → Nat
  | a :: b :: rest =>
    (if a > b then (if a - b > 3 then 2 else 1) else 0) + countViolationsV1 (b :: rest)
  | _ => 0

/-- Bit length of a natural number, with explicit fuel so that the kernel
can evaluate it.  Fuel 1200 covers every value below 2^1200, far beyond
the 2^1024 bound at which the source's own int-to-float conversion would
overflow. -/
def bitlenAux : Nat → Nat → Nat
  | 0, _ => 0
  | f + 1, n => if n = 0 then 0 else bitlenAux f (n / 2) + 1

/-- Bit length of a natural number. -/
def bitlen (n : Nat) : Nat := bitlenAux 1200 n

/-- Round-to-nearest-even of the dyadic rational n / 2^s to a 53-bit
significand, the IEEE-754 double rounding (exponent kept unbounded, which
is faithful below the source's float-overflow range).  The result is a
dyadic pair over the same denominator exponent. -/
def flDyadic (n s : Nat) : Nat × Nat :=
  let b := bitlen n
  if b ≤ 53 then (n, s)
  else
    let shift := b - 53
    let q := n / 2 ^ shift
    let r := n % 2 ^ shift
    let half := 2 ^ (shift - 1)
    let q2 := if r > half ∨ (r = half ∧ q % 2 = 1) then q + 1 else q
    (q2 * 2 ^ shift, s)

/-- Floor of the Python float product `float(m) * c`, where the double
constant c is the exact dyadic rational A / 2^S: the int-to-float
conversion of m and the product are each rounded to nearest-even.
Python compares an int to a float exactly, so `v <= float(m) * c` holds
iff `v ≤ pyFloatMulFloor m A S` for a natural number v. -/
def pyFloatMulFloor (m A S : Nat) : Nat :=
  let fm := flDyadic m 0
  let p := flDyadic (fm.1 * A) (fm.2 + S)
  p.1 / 2 ^ p.2

/-- v1 lines 201-220: the violation band.  Each float comparison
`violations <= max_violations * c` is embedded bit-exactly via
`pyFloatMulFloor`, with the decimal literals replaced by the doubles
nearest to them: 0.1 = 3602879701896397/2^55, 0.2 = 3602879701896397/2^54,
0.3 = 5404319552844595/2^54, 0.4 = 3602879701896397/2^53, 0.5 = 1/2,
0.7 = 3152519739159347/2^52, 0.85 = 7656119366529843/2^53.  On the
boundary this differs from the exact rational reading: 90 * 0.7 rounds to
62.99999999999999, so 63 violations over 90 resolved tactics fall to
band 3 even though 63/90 = 7/10 exactly. -/
def bandV1 (violations max_violations : Nat) : Int :=
  if violations = 0 then 10
  else if violations ≤ pyFloatMulFloor max_violations 3602879701896397 55 then 9
  else if violations ≤ pyFloatMulFloor max_violations 3602879701896397 54 then 8
  else if violations ≤ pyFloatMulFloor max_violations 5404319552844595 54 then 7
  else if violations ≤ pyFloatMulFloor max_violations 3602879701896397 53 then 6
  else if violations ≤ pyFloatMulFloor max_violations 1 1 then 5
  else if violations ≤ pyFloatMulFloor max_violations 3152519739159347 52 then 4
  else if violations ≤ pyFloatMulFloor max_violations 7656119366529843 53 then 3
  else 2

/-- v1 `evaluate_logical_coherence`. -/
def evaluate_logical_coherence (s : Option String) : Int :=
  if extract_techniques s = [] then 1
  else
    let tov := tacticOrderValuesV1 (tacticsOfV1 s)
    if tov = [] then 5
    else max 1 (min 10 (bandV1 (countViolationsV1 tov) tov.length))

/-- v1 lines 239-244: the sequence-length adjustment of the realism score. -/
def lengthAdjV1 (n : Nat) : Int :=
  if n < 5 then -2
  else if n > 40 then -2
  else if 8 ≤ n ∧ n ≤ 25 then 1
  else 0

/-- v1 lines 250-256: how many of the three essential tactic groups are
present (entry, execution, control/persistence). -/
def essentialPresentV1 (tactics : List String) : Nat :=
  (if "initial-access" ∈ tactics ∨ "reconnaissance" ∈ tactics then 1 else 0) +
  (if "execution" ∈ tactics then 1 else 0) +
  (if "command-and-control" ∈ tactics ∨ "persistence" ∈ tactics then 1 else 0)

/-- v1 lines 258-263: the essential-group adjustment. -/
def essentialAdjV1 (essential_present : Nat) : Int :=
  if essential_present ≥ 2 then 1
  else if essential_present = 1 then -1
  else -2

/-- v1 lines 266-269: impact without collection or exfiltration is penalized
unless the APT is one of the destructive three. -/
def impactAdjV1 (tactics : List String) (apt_name : String) : Int :=
  if "impact" ∈ tactics ∧ "collection" ∉ tactics ∧ "exfiltration" ∉ tactics ∧
      apt_name ∉ ["Sandworm_Team", "Wizard_Spider", "Lazarus_Group"] then -1
  else 0

/-- v1 `evaluate_operational_realism`: base 7 plus the three independent
adjustments, clamped to [1,10]; empty input short-circuits to 1. -/
def evaluate_operational_realism (s : Option String) (apt_name : String) : Int :=
  if extract_techniques s = [] then 1
  else
    max 1 (min 10 (7 + lengthAdjV1 (extract_techniques s).length
      + essentialAdjV1 (essentialPresentV1 (tacticsOfV1 s))
      + impactAdjV1 (tacticsOfV1 s) apt_name))

/-- v1 lines 301-303: with no clear objective, assume espionage. -/
def fallbackEspionageV1 (objectives : List String) : List String :=
  if objectives = [] then ["espionage"] else objectives

/-- v1 lines 280-305 of `infer_objective_from_sequence`, as a function of
the tactic list (membership in the Python set equals list membership). -/
def inferFromTacticsV1 (tactics : List String) : List String :=
  let objectives : List String := []
  let objectives :=
    if "exfiltration" ∈ tactics ∨ "collection" ∈ tactics then objectives ++ ["espionage"]
    else objectives
  let objectives :=
    if "credential-access" ∈ tactics ∧ "lateral-movement" ∈ tactics then
      objectives ++ ["financial-gain", "credential-theft"]
    else objectives
  let objectives :=
    if "impact" ∈ tactics then objectives ++ ["disruption", "ransomware"]
    else objectives
  let objectives :=
    if "credential-access" ∈ tactics then objectives ++ ["credential-harvesting", "credential-theft"]
    else objectives
  fallbackEspionageV1 objectives

/-- v1 `infer_objective_from_sequence`. -/
def infer_objective_from_sequence (s : Option String) : List String :=
  inferFromTacticsV1 (tacticsOfV1 s)

/-- v1 lines 338-342: the compatibility groups. -/
def compatible_groups_V1 : List (List String) := [
  ["espionage", "credential-theft", "credential-harvesting"],
  ["financial-gain", "financial-theft", "credential-theft"],
  ["disruption", "ransomware", "ics-disruption"]]

/-- v1 lines 320-348: the decision part of `evaluate_same_objective` as a
function of the two inferred objective sets (`apt_set` is
`APT_OBJECTIVES.get(apt_name, ['espionage'])`, written inline). -/
def decideSameObjectiveV1 (seed_set candidate_set : List String) (apt_name : String) : String :=
  if hasCommon seed_set candidate_set then "Yes"
  else if hasCommon seed_set (dictGet APT_OBJECTIVES_V1 apt_name ["espionage"]) &&
      hasCommon candidate_set (dictGet APT_OBJECTIVES_V1 apt_name ["espionage"]) then "Yes"
  else if compatible_groups_V1.any (fun g => hasCommon seed_set g && hasCommon candidate_set g) then "Yes"
  else "No"

/-- v1 `evaluate_same_objective`. -/
def evaluate_same_objective (seed candidate : Option String) (apt_name : String) : String :=
  if candidate = none ∨ candidate = some "" then "No"
  else
    decideSameObjectiveV1 (infer_objective_from_sequence seed)
      (infer_objective_from_sequence candidate) apt_name

/-! ### Static tables of score_apt_variants_v2.py (v2) -/

def TACTIC_ORDER_V2 : List (String × Nat) := [
  ("reconnaissance", 1),
  ("resource-development", 2),
  ("initial-access", 3),
  ("execution", 4),
  ("persistence", 5),
  ("privilege-escalation", 6),
  ("defense-evasion", 7),
  ("credential-access", 8),
  ("discovery", 9),
  ("lateral-movement", 10),
  ("collection", 11),
  ("command-and-control", 12),
  ("exfiltration", 13),
  ("impact", 14)]

def TECHNIQUE_TO_TACTIC : List (String × String) := [
  ("T1595", "reconnaissance"),
  ("T1594", "reconnaissance"),
  ("T1593", "reconnaissance"),
  ("T1592", "reconnaissance"),
  ("T1590", "reconnaissance"),
  ("T1591", "reconnaissance"),
  ("T1589", "reconnaissance"),
  ("T1598", "reconnaissance"),
  ("T1583", "resource-development"),
  ("T1586", "resource-development"),
  ("T1584", "resource-development"),
  ("T1587", "resource-development"),
  ("T1585", "resource-development"),
  ("T1588", "resource-development"),
  ("T1189", "initial-access"),
  ("T1190", "initial-access"),
  ("T1133", "initial-access"),
  ("T1200", "initial-access"),
  ("T1566", "initial-access"),
  ("T1091", "initial-access"),
  ("T1195", "initial-access"),
  ("T1199", "initial-access"),
  ("T1078", "initial-access"),
  ("T1059", "execution"),
  ("T1106", "execution"),
  ("T1203", "execution"),
  ("T1559", "execution"),
  ("T1569", "execution"),
  ("T1204", "execution"),
  ("T1047", "execution"),
  ("T1053", "execution"),
  ("T1072", "execution"),
  ("T1129", "execution"),
  ("T1098", "persistence"),
  ("T1197", "persistence"),
  ("T1547", "persistence"),
  ("T1037", "persistence"),
  ("T1136", "persistence"),
  ("T1543", "persistence"),
  ("T1505", "persistence"),
  ("T1542", "persistence"),
  ("T1554", "persistence"),
  ("T1053", "persistence"),
  ("T1133", "persistence"),
  ("T1078", "persistence"),
  ("T1574", "persistence"),
  ("T1134", "privilege-escalation"),
  ("T1548", "privilege-escalation"),
  ("T1547", "privilege-escalation"),
  ("T1037", "privilege-escalation"),
  ("T1543", "privilege-escalation"),
  ("T1068", "privilege-escalation"),
  ("T1574", "privilege-escalation"),
  ("T1055", "privilege-escalation"),
  ("T1053", "privilege-escalation"),
  ("T1078", "privilege-escalation"),
  ("T1088", "privilege-escalation"),
  ("T1548", "defense-evasion"),
  ("T1134", "defense-evasion"),
  ("T1197", "defense-evasion"),
  ("T1140", "defense-evasion"),
  ("T1480", "defense-evasion"),
  ("T1211", "defense-evasion"),
  ("T1222", "defense-evasion"),
  ("T1564", "defense-evasion"),
  ("T1574", "defense-evasion"),
  ("T1562", "defense-evasion"),
  ("T1070", "defense-evasion"),
  ("T1202", "defense-evasion"),
  ("T1036", "defense-evasion"),
  ("T1556", "defense-evasion"),
  ("T1578", "defense-evasion"),
  ("T1112", "defense-evasion"),
  ("T1027", "defense-evasion"),
  ("T1647", "defense-evasion"),
  ("T1055", "defense-evasion"),
  ("T1542", "defense-evasion"),
  ("T1620", "defense-evasion"),
  ("T1207", "defense-evasion"),
  ("T1218", "defense-evasion"),
  ("T1216", "defense-evasion"),
  ("T1553", "defense-evasion"),
  ("T1221", "defense-evasion"),
  ("T1205", "defense-evasion"),
  ("T1127", "defense-evasion"),
  ("T1535", "defense-evasion"),
  ("T1078", "defense-evasion"),
  ("T1497", "defense-evasion"),
  ("T1600", "defense-evasion"),
  ("T1601", "defense-evasion"),
  ("T1550", "defense-evasion"),
  ("T1110", "credential-access"),
  ("T1555", "credential-access"),
  ("T1212", "credential-access"),
  ("T1187", "credential-access"),
  ("T1606", "credential-access"),
  ("T1056", "credential-access"),
  ("T1556", "credential-access"),
  ("T1111", "credential-access"),
  ("T1621", "credential-access"),
  ("T1040", "credential-access"),
  ("T1003", "credential-access"),
  ("T1528", "credential-access"),
  ("T1558", "credential-access"),
  ("T1539", "credential-access"),
  ("T1087", "discovery"),
  ("T1010", "discovery"),
  ("T1217", "discovery"),
  ("T1580", "discovery"),
  ("T1538", "discovery"),
  ("T1526", "discovery"),
  ("T1482", "discovery"),
  ("T1083", "discovery"),
  ("T1615", "discovery"),
  ("T1046", "discovery"),
  ("T1135", "discovery"),
  ("T1040", "discovery"),
  ("T1201", "discovery"),
  ("T1120", "discovery"),
  ("T1069", "discovery"),
  ("T1057", "discovery"),
  ("T1012", "discovery"),
  ("T1018", "discovery"),
  ("T1518", "discovery"),
  ("T1082", "discovery"),
  ("T1614", "discovery"),
  ("T1016", "discovery"),
  ("T1049", "discovery"),
  ("T1033", "discovery"),
  ("T1007", "discovery"),
  ("T1124", "discovery"),
  ("T1497", "discovery"),
  ("T1622", "discovery"),
  ("T1210", "lateral-movement"),
  ("T1534", "lateral-movement"),
  ("T1570", "lateral-movement"),
  ("T1563", "lateral-movement"),
  ("T1021", "lateral-movement"),
  ("T1091", "lateral-movement"),
  ("T1072", "lateral-movement"),
  ("T1080", "lateral-movement"),
  ("T1550", "lateral-movement"),
  ("T1077", "lateral-movement"),
  ("T1560", "collection"),
  ("T1123", "collection"),
  ("T1119", "collection"),
  ("T1185", "collection"),
  ("T1115", "collection"),
  ("T1530", "collection"),
  ("T1602", "collection"),
  ("T1213", "collection"),
  ("T1005", "collection"),
  ("T1039", "collection"),
  ("T1025", "collection"),
  ("T1074", "collection"),
  ("T1114", "collection"),
  ("T1113", "collection"),
  ("T1125", "collection"),
  ("T1071", "command-and-control"),
  ("T1092", "command-and-control"),
  ("T1132", "command-and-control"),
  ("T1001", "command-and-control"),
  ("T1568", "command-and-control"),
  ("T1573", "command-and-control"),
  ("T1008", "command-and-control"),
  ("T1105", "command-and-control"),
  ("T1104", "command-and-control"),
  ("T1095", "command-and-control"),
  ("T1571", "command-and-control"),
  ("T1572", "command-and-control"),
  ("T1090", "command-and-control"),
  ("T1219", "command-and-control"),
  ("T1205", "command-and-control"),
  ("T1102", "command-and-control"),
  ("T1043", "command-and-control"),
  ("T1020", "exfiltration"),
  ("T1030", "exfiltration"),
  ("T1048", "exfiltration"),
  ("T1041", "exfiltration"),
  ("T1011", "exfiltration"),
  ("T1052", "exfiltration"),
  ("T1567", "exfiltration"),
  ("T1029", "exfiltration"),
  ("T1537", "exfiltration"),
  ("T1531", "impact"),
  ("T1485", "impact"),
  ("T1486", "impact"),
  ("T1565", "impact"),
  ("T1491", "impact"),
  ("T1561", "impact"),
  ("T1499", "impact"),
  ("T1495", "impact"),
  ("T1490", "impact"),
  ("T1498", "impact"),
  ("T1496", "impact"),
  ("T1489", "impact"),
  ("T1529", "impact"),
  ("T1657", "impact")]

def APT_OBJECTIVES_V2 : List (String × List String) := [
  ("APT41", ["espionage", "financial-gain"]),
  ("Turla", ["espionage"]),
  ("MuddyWater", ["espionage", "disruption"]),
  ("APT39", ["espionage", "credential-harvesting"]),
  ("Lazarus_Group", ["financial-gain", "disruption", "ransomware"]),
  ("APT28", ["espionage"]),
  ("Cobalt_Group", ["financial-theft"]),
  ("APT31", ["espionage"]),
  ("APT37", ["espionage"]),
  ("APT29", ["espionage"]),
  ("APT38", ["financial-theft"]),
  ("BRONZEBUTLER", ["espionage"]),
  ("Kimsuky", ["espionage", "credential-harvesting"]),
  ("Dragonfly", ["espionage", "ics-targeting"]),
  ("Sandworm_Team", ["disruption", "ransomware"]),
  ("Aquatic_Panda", ["espionage"]),
  ("Wizard_Spider", ["ransomware"]),
  ("FIN7", ["financial-theft"]),
  ("APT3", ["espionage"])]


/-! ### v2 scoring functions -/

/-- v2 `get_tactic_sequence`: resolve each technique and keep only the
resolvable ones, in order. -/
def get_tactic_sequence : List String → List String
  | [] => []
  | t :: ts =>
    let tactic := dictGet TECHNIQUE_TO_TACTIC (baseTechnique t) "unknown"
    if tactic = "unknown" then get_tactic_sequence ts
    else tactic :: get_tactic_sequence ts

/-- The resolved tactic list `get_tactic_sequence(extract_techniques(s))`
used throughout v2. -/
def tacticsOfV2 (s : Option String) : List String :=
  get_tactic_sequence (extract_techniques s)

/-- v2 line 200: the direct dict indexing `TACTIC_ORDER[t]`; `none` models
the `KeyError` branch. -/
def lookupTacticOrderV2 (t : String) : Option Nat :=
  match TACTIC_ORDER_V2.find? (fun p => p.1 == t) with
  | some p => some p.2
  | none => none

/-- The list comprehension `[TACTIC_ORDER[t] for t in tactics]`: `none` as
soon as one lookup raises. -/
def lookupNums : List String → Option (List Nat)
  | [] => some []
  | t :: ts =>
    match lookupTacticOrderV2 t, lookupNums ts with
    | some n, some ns => some (n :: ns)
    | _, _ => none

/-- v2 lines 206-211: a consecutive decrease counts as a violation only
when the backward step exceeds 2. -/
def countViolationsV2 : List Nat → Nat
  | a :: b :: rest =>
    (if a > b then (if a - b > 2 then 1 else 0) else 0) + countViolationsV2 (b :: rest)
  | _ => 0

/-- v2 lines 206-213: a consecutive decrease is a major violation when the
backward step exceeds 5. -/
def countMajorV2 : List Nat → Nat
  | a :: b :: rest =>
    (if a > b then (if a - b > 5 then 1 else 0) else 0) + countMajorV2 (b :: rest)
  | _ => 0

/-- v2 lines 227-247: the violation band.  Major violations short-circuit
to a low band; otherwise the float `violation_ratio = violations /
total_transitions` is compared to its thresholds, embedded exactly by
cross-multiplication (e.g. `ratio <= 0.05` as `20 * violations <=
total_transitions`, `ratio == 0` as `violations = 0`). -/
def scoreFromViolations (major_violations violations total_transitions : Nat) : Int :=
  if major_violations ≥ 3 then 2
  else if major_violations = 2 then 3
  else if major_violations = 1 then 4
  else if violations = 0 then 10
  else if 20 * violations ≤ total_transitions then 9
  else if 20 * violations ≤ 3 * total_transitions then 8
  else if 4 * violations ≤ total_transitions then 7
  else if 20 * violations ≤ 7 * total_transitions then 6
  else if 2 * violations ≤ total_transitions then 5
  else 4

/-- v2 lines 203-257 after the tactic numbers are resolved: violation
counting, the `total_transitions == 0` early return of 7, the band, the
structure bonus and the missing-initial-access penalty, and the final
clamp. -/
def coherenceScoreV2 (techniques tactics : List String) (tactic_nums : List Nat) : Int :=
  let violations := countViolationsV2 tactic_nums
  let major_violations := countMajorV2 tactic_nums
  let has_initial_access :=
    (tactics.take 7).any (fun t => t == "initial-access" || t == "reconnaissance")
  let has_execution := tactics.contains "execution"
  let has_c2_or_persistence :=
    tactics.any (fun t => t == "command-and-control" || t == "persistence")
  if tactic_nums.length - 1 = 0 then 7
  else
    let score := scoreFromViolations major_violations violations (tactic_nums.length - 1)
    let score :=
      if has_initial_access && has_execution && has_c2_or_persistence then min (score + 1) 10
      else score
    let score :=
      if !has_initial_access && decide (techniques.length > 6) then max (score - 2) 1
      else score
    max 1 (min 10 score)

/-- v2 `score_logical_coherence`; `none` models the `KeyError` that the
direct `TACTIC_ORDER[t]` lookup would raise. -/
def score_logical_coherence (s : Option String) : Option Int :=
  if extract_techniques s = [] ∨ (extract_techniques s).length < 3 then some 5
  else if tacticsOfV2 s = [] then some 4
  else
    match lookupNums (tacticsOfV2 s) with
    | none => none
    | some tactic_nums => some (coherenceScoreV2 (extract_techniques s) (tacticsOfV2 s) tactic_nums)

/-- v2 lines 280-286: the sequence-length adjustment of the realism score. -/
def lengthAdjV2 (n : Nat) : Int :=
  if n < 5 then -2
  else if n > 50 then -2
  else if 8 ≤ n ∧ n ≤ 30 then 1
  else 0

/-- v2 lines 288-294: how many of the three essential tactic groups are
present (`has_initial`, `has_execution`, `has_c2 or has_persistence`). -/
def essentialCountV2 (tactics : List String) : Nat :=
  (if "initial-access" ∈ tactics ∨ "reconnaissance" ∈ tactics then 1 else 0) +
  (if "execution" ∈ tactics then 1 else 0) +
  (if "command-and-control" ∈ tactics ∨ "persistence" ∈ tactics then 1 else 0)

/-- v2 lines 295-300: the essential-group adjustment (exactly two groups is
neutral). -/
def essentialAdjV2 (essential_count : Nat) : Int :=
  if essential_count ≥ 3 then 1
  else if essential_count = 1 then -1
  else if essential_count = 0 then -2
  else 0

/-- v2 lines 309-314: espionage APTs are rewarded for collection or
exfiltration and penalized for impact without either. -/
def espionageAdjV2 (tactics : List String) (apt_objectives : List String) : Int :=
  if "espionage" ∈ apt_objectives then
    (if "collection" ∈ tactics ∨ "exfiltration" ∈ tactics then 1 else 0) +
    (if "impact" ∈ tactics ∧ ¬("collection" ∈ tactics ∨ "exfiltration" ∈ tactics) then -1 else 0)
  else 0

/-- v2 lines 316-319: financial or ransomware APTs are rewarded for
credential access or impact. -/
def financialAdjV2 (tactics : List String) (apt_objectives : List String) : Int :=
  if ("financial-theft" ∈ apt_objectives ∨ "financial-gain" ∈ apt_objectives ∨
      "ransomware" ∈ apt_objectives) ∧
      ("credential-access" ∈ tactics ∨ "impact" ∈ tactics) then 1
  else 0

/-- v2 lines 321-324: disruption or ransomware APTs are rewarded for
impact. -/
def disruptionAdjV2 (tactics : List String) (apt_objectives : List String) : Int :=
  if ("disruption" ∈ apt_objectives ∨ "ransomware" ∈ apt_objectives) ∧
      "impact" ∈ tactics then 1
  else 0

/-- v2 `score_operational_realism`: base 8 plus the independent
adjustments, clamped to [1,10]; empty input short-circuits to 1. -/
def score_operational_realism (s : Option String) (apt_group : String) : Int :=
  if extract_techniques s = [] then 1
  else
    let apt_objectives := dictGet APT_OBJECTIVES_V2 apt_group ["espionage"]
    max 1 (min 10 (8 + lengthAdjV2 (extract_techniques s).length
      + essentialAdjV2 (essentialCountV2 (tacticsOfV2 s))
      + espionageAdjV2 (tacticsOfV2 s) apt_objectives
      + financialAdjV2 (tacticsOfV2 s) apt_objectives
      + disruptionAdjV2 (tacticsOfV2 s) apt_objectives))

/-- v2 lines 340-351: the nested `infer_objectives` of
`determine_same_objective`, over a tactic set given as a list. -/
def inferObjectivesV2 (tactics : List String) : List String :=
  let objectives : List String := []
  let objectives :=
    if "exfiltration" ∈ tactics ∨ "collection" ∈ tactics then objectives ++ ["espionage"]
    else objectives
  let objectives :=
    if "impact" ∈ tactics then
      (if "credential-access" ∈ tactics ∨ "lateral-movement" ∈ tactics then
        objectives ++ ["disruption", "ransomware"]
      else objectives ++ ["disruption"])
    else objectives
  let objectives :=
    if "credential-access" ∈ tactics ∧ "lateral-movement" ∈ tactics then
      objectives ++ ["financial-gain", "credential-harvesting"]
    else objectives
  objectives

/-- v2 lines 367-371: the compatibility groups. -/
def compatibleGroupsV2 : List (List String) := [
  ["espionage", "credential-harvesting"],
  ["financial-gain", "credential-harvesting"],
  ["disruption", "ransomware"]]

/-- v2 lines 356-360: an inferred set with no clear objectives is replaced
by the APT's known objectives. -/
def fallbackV2 (obj : List String) (apt_group : String) : List String :=
  if obj = [] then dictGet APT_OBJECTIVES_V2 apt_group ["espionage"] else obj

/-- v2 lines 356-377: the decision part of `determine_same_objective` as a
function of the two inferred objective sets. -/
def decideSameObjectiveV2 (seed_obj cand_obj : List String) (apt_group : String) : String :=
  if hasCommon (fallbackV2 seed_obj apt_group) (fallbackV2 cand_obj apt_group) then "Yes"
  else if compatibleGroupsV2.any (fun g =>
      hasCommon (fallbackV2 seed_obj apt_group) g && hasCommon (fallbackV2 cand_obj apt_group) g) then "Yes"
  else "No"

/-- v2 `determine_same_objective`. -/
def determine_same_objective (seed candidate : Option String) (apt_group : String) : String :=
  if candidate = none ∨ candidate = some "" then "No"
  else
    decideSameObjectiveV2 (inferObjectivesV2 (tacticsOfV2 seed))
      (inferObjectivesV2 (tacticsOfV2 candidate)) apt_group

/-! ### Definitions used to state the claims -/

/-- Number of decreasing consecutive transitions in a list of order
positions (claim-level notion: any strict decrease, regardless of
magnitude). -/
def decreasesI : List Int → Nat
  | a :: b :: rest => (if a > b then 1 else 0) + decreasesI (b :: rest)
  | _ => 0

/-- Number of decreasing consecutive transitions, `Nat`-valued positions
(the v2 tables). -/
def decreasesN : List Nat → Nat
  | a :: b :: rest => (if a > b then 1 else 0) + decreasesN (b :: rest)
  | _ => 0

/-- The resolved tactic order positions of v2; total because the lookup
never fails (proved below), with `[]` as the irrelevant default. -/
def tacticNumsV2 (s : Option String) : List Nat :=
  (lookupNums (tacticsOfV2 s)).getD []

/-! ### General lemmas about the embedding -/

/-- A `dictGet` result is either the default or one of the table's values. -/
lemma dictGet_mem {α : Type} (m : List (String × α)) (k : String) (d : α) :
    dictGet m k d = d ∨ ∃ p ∈ m, dictGet m k d = p.2 := by
  unfold dictGet
  cases hf : m.reverse.find? (fun p => p.1 == k) with
  | none => exact Or.inl rfl
  | some p =>
    refine Or.inr ⟨p, ?_, rfl⟩
    have := List.mem_of_find?_eq_some hf
    exact List.mem_reverse.mp this

/-- A non-empty list intersects itself. -/
lemma hasCommon_self (l : List String) (h : l ≠ []) : hasCommon l l = true := by
  cases l with
  | nil => exact absurd rfl h
  | cons a as =>
    simp only [hasCommon, List.any_eq_true]
    exact ⟨a, List.mem_cons_self a as, by simp⟩

/-- Every objective list in the v1 APT table is non-empty. -/
lemma APT_OBJECTIVES_V1_values_ne_nil : ∀ p ∈ APT_OBJECTIVES_V1, p.2 ≠ [] := by decide

/-- Every objective list in the v2 APT table is non-empty. -/
lemma APT_OBJECTIVES_V2_values_ne_nil : ∀ p ∈ APT_OBJECTIVES_V2, p.2 ≠ [] := by decide

/-- The v2 APT-objective lookup (with its `['espionage']` default) never
yields an empty list. -/
lemma aptObjsV2_ne_nil (apt : String) : dictGet APT_OBJECTIVES_V2 apt ["espionage"] ≠ [] := by
  rcases dictGet_mem APT_OBJECTIVES_V2 apt ["espionage"] with h | ⟨p, hp, he⟩
  · rw [h]; simp
  · rw [he]; exact APT_OBJECTIVES_V2_values_ne_nil p hp

/-- The v1 espionage fallback always returns a non-empty list. -/
lemma fallbackEspionageV1_ne_nil (objectives : List String) :
    fallbackEspionageV1 objectives ≠ [] := by
  unfold fallbackEspionageV1
  split
  · simp
  · assumption

/-- The v1 objective inference always returns a non-empty list (it falls
back to `['espionage']`). -/
lemma inferFromTacticsV1_ne_nil (ts : List String) : inferFromTacticsV1 ts ≠ [] :=
  fallbackEspionageV1_ne_nil _

/-- The full v1 objective inference from a raw sequence is non-empty. -/
lemma infer_objective_ne_nil (s : Option String) : infer_objective_from_sequence s ≠ [] :=
  inferFromTacticsV1_ne_nil _

/-- The v2 fallback always returns a non-empty list. -/
lemma fallbackV2_ne_nil (obj : List String) (apt : String) : fallbackV2 obj apt ≠ [] := by
  unfold fallbackV2
  split
  · exact aptObjsV2_ne_nil apt
  · assumption

/-- The v2 decision returns `Yes` on two equal objective sets. -/
lemma decideSameObjectiveV2_self (x : List String) (apt : String) :
    decideSameObjectiveV2 x x apt = "Yes" := by
  unfold decideSameObjectiveV2
  rw [if_pos (hasCommon_self _ (fallbackV2_ne_nil x apt))]

/-! ### Claim C7 -/

/-- C7: for every seed sequence and APT name, a missing (`none`) or
empty-string candidate makes both Objective Classifiers return `No`
immediately. -/
theorem C7_empty_candidate_is_No (seed : Option String) (apt : String) :
    evaluate_same_objective seed none apt = "No" ∧
    evaluate_same_objective seed (some "") apt = "No" ∧
    determine_same_objective seed none apt = "No" ∧
    determine_same_objective seed (some "") apt = "No" := by
  refine ⟨?_, ?_, ?_, ?_⟩ <;> simp [evaluate_same_objective, determine_same_objective]

/-! ### Claim C5 -/

/-- C5: for every present, non-empty-string sequence S and every APT name,
both Objective Classifiers answer `Yes` on (S, S, apt): a sequence always
shares its own objective. -/
theorem C5_self_objective_yes (s : Option String) (apt : String)
    (h1 : s ≠ none) (h2 : s ≠ some "") :
    evaluate_same_objective s s apt = "Yes" ∧ determine_same_objective s s apt = "Yes" := by
  have hcond : ¬(s = none ∨ s = some "") := by
    rintro (h | h)
    · exact h1 h
    · exact h2 h
  constructor
  · unfold evaluate_same_objective
    rw [if_neg hcond]
    unfold decideSameObjectiveV1
    rw [if_pos (hasCommon_self _ (infer_objective_ne_nil s))]
  · unfold determine_same_objective
    rw [if_neg hcond]
    exact decideSameObjectiveV2_self _ apt

/-- C5 witness at a concrete input. -/
theorem C5_self_objective_yes_witness :
    evaluate_same_objective (some "T1566 T1059") (some "T1566 T1059") "APT29" = "Yes" ∧
    determine_same_objective (some "T1566 T1059") (some "T1566 T1059") "APT29" = "Yes" :=
  C5_self_objective_yes (some "T1566 T1059") "APT29" (by simp) (by simp)

/-! ### Claim C4 -/

/-- C4 counterexample: on `"T1071 T1566"` the v2 Coherence Scorer returns
5, not a score less than or equal to 3, because an input with fewer than 3
techniques short-circuits before any order analysis. -/
theorem C4_counterexample :
    score_logical_coherence (some "T1071 T1566") = some 5 := by decide

/-- C4 amended: on `"T1071 T1566"` (command-and-control then
initial-access) the v1 Coherence Scorer returns 2 (which is at most 3),
while the v2 scorer returns the too-short-to-evaluate score 5. -/
theorem C4_amended :
    evaluate_logical_coherence (some "T1071 T1566") = 2 ∧
    evaluate_logical_coherence (some "T1071 T1566") ≤ 3 ∧
    score_logical_coherence (some "T1071 T1566") = some 5 := by
  refine ⟨by decide, by decide, by decide⟩

/-! ### Claim C1 -/

/-- C1 counterexample: the v2 Coherence Scorer returns 5 (not 1) on the
empty input, and the v1 Coherence Scorer returns 10 (not 5) on the
1-technique sequence `"T1566"`. -/
theorem C1_counterexample :
    score_logical_coherence (some "") = some 5 ∧
    evaluate_logical_coherence (some "T1566") = 10 := by
  refine ⟨by decide, by decide⟩

/-- C1 amended: the v1 scorer returns 1 exactly on inputs with no
extractable techniques, and 5 when techniques exist but none resolves to a
known tactic; the v2 scorer returns 5 on every input with fewer than 3
extractable techniques, the empty input included. -/
theorem C1_amended (s : Option String) :
    (extract_techniques s = [] → evaluate_logical_coherence s = 1) ∧
    (extract_techniques s ≠ [] → tacticOrderValuesV1 (tacticsOfV1 s) = [] →
      evaluate_logical_coherence s = 5) ∧
    ((extract_techniques s).length < 3 → score_logical_coherence s = some 5) := by
  refine ⟨?_, ?_, ?_⟩
  · intro h
    unfold evaluate_logical_coherence
    rw [if_pos h]
  · intro h1 h2
    simp only [evaluate_logical_coherence, h2]
    rw [if_neg h1]
    simp
  · intro h
    unfold score_logical_coherence
    rw [if_pos (Or.inr h)]

/-- C1 amended witness at concrete inputs. -/
theorem C1_amended_witness :
    evaluate_logical_coherence (some "no identifiers") = 1 ∧
    evaluate_logical_coherence (some "T9999") = 5 ∧
    score_logical_coherence (some "T1071 T1566") = some 5 :=
  ⟨(C1_amended (some "no identifiers")).1 (by decide),
   (C1_amended (some "T9999")).2.1 (by decide) (by decide),
   (C1_amended (some "T1071 T1566")).2.2 (by decide)⟩

/-! ### Bounds on the realism adjustments -/

lemma lengthAdjV1_lb (n : Nat) : -2 ≤ lengthAdjV1 n := by
  unfold lengthAdjV1; split_ifs <;> omega

lemma essentialAdjV1_lb (e : Nat) : -2 ≤ essentialAdjV1 e := by
  unfold essentialAdjV1; split_ifs <;> omega

lemma impactAdjV1_lb (tactics : List String) (apt : String) : -1 ≤ impactAdjV1 tactics apt := by
  unfold impactAdjV1; split_ifs <;> omega

lemma lengthAdjV2_lb (n : Nat) : -2 ≤ lengthAdjV2 n := by
  unfold lengthAdjV2; split_ifs <;> omega

lemma essentialAdjV2_lb (e : Nat) : -2 ≤ essentialAdjV2 e := by
  unfold essentialAdjV2; split_ifs <;> omega

lemma espionageAdjV2_lb (tactics apt_objectives : List String) :
    -1 ≤ espionageAdjV2 tactics apt_objectives := by
  unfold espionageAdjV2; split_ifs <;> omega

lemma financialAdjV2_lb (tactics apt_objectives : List String) :
    0 ≤ financialAdjV2 tactics apt_objectives := by
  unfold financialAdjV2; split_ifs <;> omega

lemma disruptionAdjV2_lb (tactics apt_objectives : List String) :
    0 ≤ disruptionAdjV2 tactics apt_objectives := by
  unfold disruptionAdjV2; split_ifs <;> omega

/-! ### Claim C10 -/

/-- C10: when at least one technique is extracted, both Realism Scorers
return at least 2: the worst case of all penalties (v1: 7-2-2-1, v2:
8-2-2-1) stays at or above 2 before the clamp, so the clamp's lower bound
of 1 is reached only through the empty-input short-circuit. -/
theorem C10_realism_at_least_two (s : Option String) (apt : String)
    (h : extract_techniques s ≠ []) :
    2 ≤ evaluate_operational_realism s apt ∧ 2 ≤ score_operational_realism s apt := by
  constructor
  · unfold evaluate_operational_realism
    rw [if_neg h]
    have h1 := lengthAdjV1_lb (extract_techniques s).length
    have h2 := essentialAdjV1_lb (essentialPresentV1 (tacticsOfV1 s))
    have h3 := impactAdjV1_lb (tacticsOfV1 s) apt
    omega
  · unfold score_operational_realism
    rw [if_neg h]
    dsimp only
    have h1 := lengthAdjV2_lb (extract_techniques s).length
    have h2 := essentialAdjV2_lb (essentialCountV2 (tacticsOfV2 s))
    have h3 := espionageAdjV2_lb (tacticsOfV2 s) (dictGet APT_OBJECTIVES_V2 apt ["espionage"])
    have h4 := financialAdjV2_lb (tacticsOfV2 s) (dictGet APT_OBJECTIVES_V2 apt ["espionage"])
    have h5 := disruptionAdjV2_lb (tacticsOfV2 s) (dictGet APT_OBJECTIVES_V2 apt ["espionage"])
    omega

/-- C10 witness at a concrete worst-case input (a lone impact technique
under an espionage APT scores exactly 2 in v1). -/
theorem C10_realism_at_least_two_witness :
    2 ≤ evaluate_operational_realism (some "T1486") "Turla" ∧
    2 ≤ score_operational_realism (some "T1486") "Turla" :=
  C10_realism_at_least_two (some "T1486") "Turla" (by decide)

/-! ### Claim C6 -/

lemma essentialAdjV1_mono {e1 e2 : Nat} (h : e1 ≤ e2) :
    essentialAdjV1 e1 ≤ essentialAdjV1 e2 := by
  unfold essentialAdjV1; split_ifs <;> omega

lemma essentialAdjV2_mono {e1 e2 : Nat} (h : e1 ≤ e2) :
    essentialAdjV2 e1 ≤ essentialAdjV2 e2 := by
  unfold essentialAdjV2; split_ifs <;> omega

/-- C6: holding the technique count, the APT name and all
non-essential-group tactic facts (impact, collection, exfiltration and,
for v2, credential-access membership) fixed, both Realism Scorers are
monotone non-decreasing in the number of essential tactic groups present
(entry, execution, control/persistence). -/
theorem C6_realism_monotone_in_essentials (s1 s2 : Option String) (apt : String)
    (hlen : (extract_techniques s1).length = (extract_techniques s2).length)
    (h1i : ("impact" ∈ tacticsOfV1 s1) ↔ ("impact" ∈ tacticsOfV1 s2))
    (h1c : ("collection" ∈ tacticsOfV1 s1) ↔ ("collection" ∈ tacticsOfV1 s2))
    (h1e : ("exfiltration" ∈ tacticsOfV1 s1) ↔ ("exfiltration" ∈ tacticsOfV1 s2))
    (h1ess : essentialPresentV1 (tacticsOfV1 s1) ≤ essentialPresentV1 (tacticsOfV1 s2))
    (h2i : ("impact" ∈ tacticsOfV2 s1) ↔ ("impact" ∈ tacticsOfV2 s2))
    (h2c : ("collection" ∈ tacticsOfV2 s1) ↔ ("collection" ∈ tacticsOfV2 s2))
    (h2e : ("exfiltration" ∈ tacticsOfV2 s1) ↔ ("exfiltration" ∈ tacticsOfV2 s2))
    (h2cr : ("credential-access" ∈ tacticsOfV2 s1) ↔ ("credential-access" ∈ tacticsOfV2 s2))
    (h2ess : essentialCountV2 (tacticsOfV2 s1) ≤ essentialCountV2 (tacticsOfV2 s2)) :
    evaluate_operational_realism s1 apt ≤ evaluate_operational_realism s2 apt ∧
    score_operational_realism s1 apt ≤ score_operational_realism s2 apt := by
  by_cases hn : extract_techniques s1 = []
  · have hn2 : extract_techniques s2 = [] := by
      have : (extract_techniques s2).length = 0 := by rw [← hlen, hn]; rfl
      exact List.length_eq_zero.mp this
    constructor
    · unfold evaluate_operational_realism; rw [if_pos hn, if_pos hn2]
    · unfold score_operational_realism; rw [if_pos hn, if_pos hn2]
  · have hn2 : extract_techniques s2 ≠ [] := by
      intro hc
      apply hn
      have : (extract_techniques s1).length = 0 := by rw [hlen, hc]; rfl
      exact List.length_eq_zero.mp this
    constructor
    · unfold evaluate_operational_realism
      rw [if_neg hn, if_neg hn2]
      have eI : impactAdjV1 (tacticsOfV1 s1) apt = impactAdjV1 (tacticsOfV1 s2) apt := by
        unfold impactAdjV1
        simp only [h1i, h1c, h1e]
      have eE := essentialAdjV1_mono h1ess
      rw [hlen, eI]
      omega
    · unfold score_operational_realism
      rw [if_neg hn, if_neg hn2]
      dsimp only
      have eS : espionageAdjV2 (tacticsOfV2 s1) (dictGet APT_OBJECTIVES_V2 apt ["espionage"]) =
          espionageAdjV2 (tacticsOfV2 s2) (dictGet APT_OBJECTIVES_V2 apt ["espionage"]) := by
        unfold espionageAdjV2
        simp only [h2i, h2c, h2e]
      have eF : financialAdjV2 (tacticsOfV2 s1) (dictGet APT_OBJECTIVES_V2 apt ["espionage"]) =
          financialAdjV2 (tacticsOfV2 s2) (dictGet APT_OBJECTIVES_V2 apt ["espionage"]) := by
        unfold financialAdjV2
        simp only [h2i, h2cr]
      have eD : disruptionAdjV2 (tacticsOfV2 s1) (dictGet APT_OBJECTIVES_V2 apt ["espionage"]) =
          disruptionAdjV2 (tacticsOfV2 s2) (dictGet APT_OBJECTIVES_V2 apt ["espionage"]) := by
        unfold disruptionAdjV2
        simp only [h2i]
      have eE := essentialAdjV2_mono h2ess
      rw [hlen, eS, eF, eD]
      omega

/-- C6 witness: an unresolvable technique (zero essential groups) against
an initial-access technique (one essential group), same length, no other
tactic facts. -/
theorem C6_realism_monotone_witness :
    evaluate_operational_realism (some "T9999") "APT41" ≤
      evaluate_operational_realism (some "T1566") "APT41" ∧
    score_operational_realism (some "T9999") "APT41" ≤
      score_operational_realism (some "T1566") "APT41" :=
  C6_realism_monotone_in_essentials (some "T9999") (some "T1566") "APT41"
    (by decide) (by decide) (by decide) (by decide) (by decide)
    (by decide) (by decide) (by decide) (by decide) (by decide)

/-! ### Totality of the v2 tactic-order lookup (claim C8) -/

/-- Every tactic emitted by `get_tactic_sequence` is a value of the
technique table. -/
lemma get_tactic_sequence_mem {ts : List String} {t : String}
    (h : t ∈ get_tactic_sequence ts) : t ∈ TECHNIQUE_TO_TACTIC.map Prod.snd := by
  induction ts with
  | nil => simp [get_tactic_sequence] at h
  | cons a as ih =>
    unfold get_tactic_sequence at h
    dsimp only at h
    by_cases hu : dictGet TECHNIQUE_TO_TACTIC (baseTechnique a) "unknown" = "unknown"
    · rw [if_pos hu] at h
      exact ih h
    · rw [if_neg hu] at h
      rcases List.mem_cons.mp h with he | hm
      · rcases dictGet_mem TECHNIQUE_TO_TACTIC (baseTechnique a) "unknown" with hd | ⟨p, hp, he2⟩
        · exact absurd hd hu
        · rw [he, he2]
          exact List.mem_map_of_mem Prod.snd hp
      · exact ih hm

set_option maxRecDepth 8000 in
/-- Every value of the v2 technique table is a key of `TACTIC_ORDER_V2`. -/
lemma technique_values_have_order :
    ∀ t ∈ TECHNIQUE_TO_TACTIC.map Prod.snd, (lookupTacticOrderV2 t).isSome = true := by decide

/-- `lookupNums` succeeds, preserving length, as soon as every listed
tactic has an order position. -/
lemma lookupNums_isSome {ts : List String}
    (h : ∀ t ∈ ts, (lookupTacticOrderV2 t).isSome = true) :
    ∃ ns, lookupNums ts = some ns ∧ ns.length = ts.length := by
  induction ts with
  | nil => exact ⟨[], rfl, rfl⟩
  | cons a as ih =>
    obtain ⟨n, hn⟩ := Option.isSome_iff_exists.mp (h a (List.mem_cons_self a as))
    obtain ⟨ns, hns, hlen⟩ := ih (fun t ht => h t (List.mem_cons_of_mem a ht))
    refine ⟨n :: ns, ?_, by simp [hlen]⟩
    unfold lookupNums
    rw [hn, hns]

/-- The tactic-number lookup of the v2 coherence scorer is total. -/
lemma lookupNums_tacticsOfV2_total (s : Option String) :
    ∃ ns, lookupNums (tacticsOfV2 s) = some ns ∧ ns.length = (tacticsOfV2 s).length :=
  lookupNums_isSome (fun t ht => technique_values_have_order t (get_tactic_sequence_mem ht))

/-- `tacticNumsV2` is the value of the total lookup. -/
lemma tacticNumsV2_eq (s : Option String) :
    lookupNums (tacticsOfV2 s) = some (tacticNumsV2 s) ∧
    (tacticNumsV2 s).length = (tacticsOfV2 s).length := by
  obtain ⟨ns, hns, hlen⟩ := lookupNums_tacticsOfV2_total s
  have he : tacticNumsV2 s = ns := by unfold tacticNumsV2; rw [hns]; rfl
  rw [he, hns, hlen]
  exact ⟨rfl, rfl⟩

/-! ### Claim C8 -/

/-- C8: the scoring layer is total.  Every tactic reaching the direct
`TACTIC_ORDER[t]` lookup of the v2 coherence scorer is a key of the table,
so the `KeyError` branch (modelled by `none`) is unreachable and
`score_logical_coherence` always returns a score.  (The remaining scoring
functions are total by construction: every other table access goes through
a defaulted `dict.get`.) -/
theorem C8_scoring_total :
    (∀ ts : List String, ∀ t ∈ get_tactic_sequence ts, (lookupTacticOrderV2 t).isSome = true) ∧
    (∀ s : Option String, ∃ n : Int, score_logical_coherence s = some n) := by
  constructor
  · intro ts t ht
    exact technique_values_have_order t (get_tactic_sequence_mem ht)
  · intro s
    unfold score_logical_coherence
    split
    · exact ⟨5, rfl⟩
    · split
      · exact ⟨4, rfl⟩
      · obtain ⟨hns, -⟩ := tacticNumsV2_eq s
        rw [hns]
        exact ⟨_, rfl⟩

/-- C8 witness at a concrete tactic produced by the resolution step. -/
theorem C8_scoring_total_witness :
    (lookupTacticOrderV2 "initial-access").isSome = true :=
  C8_scoring_total.1 ["T1566"] "initial-access" (by decide)

/-! ### Claim C2 -/

/-- With no decreasing transition, v1 counts no violations. -/
lemma countViolationsV1_of_no_decrease {l : List Int} (h : decreasesI l = 0) :
    countViolationsV1 l = 0 := by
  induction l with
  | nil => rfl
  | cons a l ih =>
    cases l with
    | nil => rfl
    | cons b r =>
      simp only [decreasesI] at h
      simp only [countViolationsV1]
      by_cases hab : a > b
      · rw [if_pos hab] at h
        exfalso
        omega
      · rw [if_neg hab] at h
        rw [if_neg hab]
        have := ih (by omega)
        omega

/-- With no decreasing transition, v2 counts no violations. -/
lemma countViolationsV2_of_no_decrease {l : List Nat} (h : decreasesN l = 0) :
    countViolationsV2 l = 0 := by
  induction l with
  | nil => rfl
  | cons a l ih =>
    cases l with
    | nil => rfl
    | cons b r =>
      simp only [decreasesN] at h
      simp only [countViolationsV2]
      by_cases hab : a > b
      · rw [if_pos hab] at h
        exfalso
        omega
      · rw [if_neg hab] at h
        rw [if_neg hab]
        have := ih (by omega)
        omega

/-- With no decreasing transition, v2 counts no major violations. -/
lemma countMajorV2_of_no_decrease {l : List Nat} (h : decreasesN l = 0) :
    countMajorV2 l = 0 := by
  induction l with
  | nil => rfl
  | cons a l ih =>
    cases l with
    | nil => rfl
    | cons b r =>
      simp only [decreasesN] at h
      simp only [countMajorV2]
      by_cases hab : a > b
      · rw [if_pos hab] at h
        exfalso
        omega
      · rw [if_neg hab] at h
        rw [if_neg hab]
        have := ih (by omega)
        omega

/-- The v2 score computation after lookup yields 10 on a perfectly ordered
sequence of at least 2 resolved tactics, provided the missing-initial-access
penalty cannot fire. -/
lemma coherenceScoreV2_perfect (techniques tactics : List String) (ns : List Nat)
    (hlen : 2 ≤ ns.length) (hd : decreasesN ns = 0)
    (hp : (tactics.take 7).any (fun t => t == "initial-access" || t == "reconnaissance") = true
      ∨ techniques.length ≤ 6) :
    coherenceScoreV2 techniques tactics ns = 10 := by
  unfold coherenceScoreV2
  dsimp only
  rw [if_neg (by omega : ¬(ns.length - 1 = 0))]
  rw [countViolationsV2_of_no_decrease hd, countMajorV2_of_no_decrease hd]
  have hband : scoreFromViolations 0 0 (ns.length - 1) = 10 := by
    unfold scoreFromViolations
    rw [if_neg (by omega), if_neg (by omega), if_neg (by omega), if_pos rfl]
  rw [hband]
  have hpen : ((!((tactics.take 7).any (fun t => t == "initial-access" || t == "reconnaissance")))
      && decide (techniques.length > 6)) = false := by
    rcases hp with hia | hlen6
    · rw [hia]
      rfl
    · have hdec : decide (techniques.length > 6) = false := decide_eq_false (by omega)
      rw [hdec, Bool.and_false]
  rw [hpen]
  rw [if_neg (show ¬((false : Bool) = true) by decide)]
  split
  · decide
  · decide

/-- C2 counterexample: seven execution techniques have zero decreasing
transitions among their resolved order positions, yet the v2 Coherence
Scorer returns 8, because the missing-initial-access penalty of -2 fires on
sequences longer than 6 techniques. -/
theorem C2_counterexample :
    decreasesN (tacticNumsV2 (some "T1059 T1059 T1059 T1059 T1059 T1059 T1059")) = 0 ∧
    score_logical_coherence (some "T1059 T1059 T1059 T1059 T1059 T1059 T1059") = some 8 := by
  refine ⟨by decide, by decide⟩

/-- C2 amended: zero decreasing transitions among the resolved order
positions yields exactly 10, for v1 on any input with at least one resolved
tactic, and for v2 on any input with at least 3 techniques and at least 2
resolved tactics in which the missing-initial-access penalty cannot fire
(an entry-stage tactic among the first 7 resolved tactics, or at most 6
techniques). -/
theorem C2_amended (s : Option String) :
    (extract_techniques s ≠ [] →
      tacticOrderValuesV1 (tacticsOfV1 s) ≠ [] →
      decreasesI (tacticOrderValuesV1 (tacticsOfV1 s)) = 0 →
      evaluate_logical_coherence s = 10) ∧
    (3 ≤ (extract_techniques s).length →
      2 ≤ (tacticsOfV2 s).length →
      decreasesN (tacticNumsV2 s) = 0 →
      (((tacticsOfV2 s).take 7).any (fun t => t == "initial-access" || t == "reconnaissance") = true
        ∨ (extract_techniques s).length ≤ 6) →
      score_logical_coherence s = some 10) := by
  constructor
  · intro hne htov hdec
    unfold evaluate_logical_coherence
    rw [if_neg hne]
    dsimp only
    rw [if_neg htov]
    rw [countViolationsV1_of_no_decrease hdec]
    have hband : bandV1 0 (tacticOrderValuesV1 (tacticsOfV1 s)).length = 10 := by
      unfold bandV1
      rw [if_pos rfl]
    rw [hband]
    decide
  · intro h3 h2 hd hp
    have hcond1 : ¬(extract_techniques s = [] ∨ (extract_techniques s).length < 3) := by
      rintro (h | h)
      · rw [h] at h3
        simp at h3
      · omega
    have hcond2 : tacticsOfV2 s ≠ [] := by
      intro h
      rw [h] at h2
      simp at h2
    obtain ⟨hns, hlen⟩ := tacticNumsV2_eq s
    unfold score_logical_coherence
    rw [if_neg hcond1, if_neg hcond2, hns]
    dsimp only
    rw [coherenceScoreV2_perfect (extract_techniques s) (tacticsOfV2 s) (tacticNumsV2 s)
      (by omega) hd hp]

/-- C2 amended witness: the canonical happy-path scenario of the spec. -/
theorem C2_amended_witness :
    evaluate_logical_coherence (some "T1566 T1059 T1547 T1071") = 10 ∧
    score_logical_coherence (some "T1566 T1059 T1547 T1071") = some 10 :=
  ⟨(C2_amended (some "T1566 T1059 T1547 T1071")).1 (by decide) (by decide) (by decide),
   (C2_amended (some "T1566 T1059 T1547 T1071")).2 (by decide) (by decide) (by decide)
     (by decide)⟩

/-! ### Claim C3 -/

/-- Transport of a cross-multiplied threshold test along an equality of
ratios. -/
lemma cross_le_of (a b v t vv tt : Nat) (ht : 0 < t) (h : v * tt = vv * t)
    (hle : a * v ≤ b * t) : a * vv ≤ b * tt := by
  have h1 : a * v * tt ≤ b * t * tt := Nat.mul_le_mul_right tt hle
  have e1 : a * v * tt = a * vv * t := by rw [Nat.mul_assoc, h, ← Nat.mul_assoc]
  have e2 : b * t * tt = b * tt * t := by ring
  rw [e1, e2] at h1
  exact Nat.le_of_mul_le_mul_right h1 ht

/-- Equal ratios satisfy the same cross-multiplied threshold tests. -/
lemma cross_le_iff (a b v t vv tt : Nat) (ht : 0 < t) (htt : 0 < tt)
    (h : v * tt = vv * t) : a * v ≤ b * t ↔ a * vv ≤ b * tt :=
  ⟨cross_le_of a b v t vv tt ht h, cross_le_of a b vv tt v t htt h.symm⟩

/-- Equal ratios are simultaneously zero. -/
lemma cross_eq_zero_iff (v t vv tt : Nat) (ht : 0 < t) (htt : 0 < tt)
    (h : v * tt = vv * t) : v = 0 ↔ vv = 0 := by
  constructor
  · intro hv
    rw [hv, Nat.zero_mul] at h
    rcases Nat.mul_eq_zero.mp h.symm with h1 | h1
    · exact h1
    · omega
  · intro hv
    rw [hv, Nat.zero_mul] at h
    rcases Nat.mul_eq_zero.mp h with h1 | h1
    · exact h1
    · omega

/-- With no major violations, the v2 band depends on violations and
transitions only through their ratio. -/
lemma scoreFromViolations_ratio_determined (v t vv tt : Nat) (ht : 0 < t) (htt : 0 < tt)
    (h : v * tt = vv * t) : scoreFromViolations 0 v t = scoreFromViolations 0 vv tt := by
  have i0 := cross_eq_zero_iff v t vv tt ht htt h
  have i1 : 20 * v ≤ t ↔ 20 * vv ≤ tt := by
    simpa using cross_le_iff 20 1 v t vv tt ht htt h
  have i2 : 20 * v ≤ 3 * t ↔ 20 * vv ≤ 3 * tt := cross_le_iff 20 3 v t vv tt ht htt h
  have i3 : 4 * v ≤ t ↔ 4 * vv ≤ tt := by
    simpa using cross_le_iff 4 1 v t vv tt ht htt h
  have i4 : 20 * v ≤ 7 * t ↔ 20 * vv ≤ 7 * tt := cross_le_iff 20 7 v t vv tt ht htt h
  have i5 : 2 * v ≤ t ↔ 2 * vv ≤ tt := by
    simpa using cross_le_iff 2 1 v t vv tt ht htt h
  unfold scoreFromViolations
  simp only [i0, i1, i2, i3, i4, i5]

set_option maxHeartbeats 1000000 in
/-- C3 counterexample: the v1 coherence score is not a function of
violations divided by (resolved length - 1).  Two inputs with 1 violation
over 10 resolved tactics and 2 violations over 19 resolved tactics have
the same ratio 1/9 = 2/18 over (length - 1) yet score 9 and 8: v1 divides
by the full resolved length, not length minus 1. -/
theorem C3_counterexample :
    evaluate_logical_coherence
      (some "T1595 T1583 T1566 T1059 T1098 T1068 T1140 T1110 T1087 T1110") = 9 ∧
    evaluate_logical_coherence
      (some "T1595 T1583 T1566 T1059 T1098 T1068 T1140 T1110 T1087 T1110 T1087 T1021 T1560 T1071 T1041 T1486 T1041 T1486 T1486") = 8 ∧
    countViolationsV1 (tacticOrderValuesV1 (tacticsOfV1
      (some "T1595 T1583 T1566 T1059 T1098 T1068 T1140 T1110 T1087 T1110"))) = 1 ∧
    (tacticOrderValuesV1 (tacticsOfV1
      (some "T1595 T1583 T1566 T1059 T1098 T1068 T1140 T1110 T1087 T1110"))).length = 10 ∧
    countViolationsV1 (tacticOrderValuesV1 (tacticsOfV1
      (some "T1595 T1583 T1566 T1059 T1098 T1068 T1140 T1110 T1087 T1110 T1087 T1021 T1560 T1071 T1041 T1486 T1041 T1486 T1486"))) = 2 ∧
    (tacticOrderValuesV1 (tacticsOfV1
      (some "T1595 T1583 T1566 T1059 T1098 T1068 T1140 T1110 T1087 T1110 T1087 T1021 T1560 T1071 T1041 T1486 T1041 T1486 T1486"))).length = 19 ∧
    1 * (19 - 1) = 2 * (10 - 1) := by
  refine ⟨by decide, by decide, by decide, by decide, by decide, by decide, by decide⟩

set_option maxHeartbeats 2000000 in
/-- C3 amended: in the v2 non-degenerate path with no major violations the
band is determined by violations and transitions (resolved length - 1)
only through their ratio, by a monotone step table with 0 violations
mapping to 10 and ratios above 50 percent mapping to the lowest band 4.
The v1 band does not follow this formula: its denominator is the full
resolved length, and its float thresholds make it not ratio-determined at
all (equal ratios 7/10 and 63/90 land in bands 4 and 3, because 90 * 0.7
rounds below 63); what survives of the claim for v1 is that 0 violations
map to 10 and the band is monotone non-increasing in the violation
count. -/
theorem C3_amended :
    (∀ v t vv tt : Nat, 0 < t → 0 < tt → v * tt = vv * t →
      scoreFromViolations 0 v t = scoreFromViolations 0 vv tt) ∧
    (∀ t : Nat, scoreFromViolations 0 0 t = 10) ∧
    (∀ v t : Nat, 0 < t → t < 2 * v → scoreFromViolations 0 v t = 4) ∧
    (∀ v vv t : Nat, v ≤ vv → scoreFromViolations 0 vv t ≤ scoreFromViolations 0 v t) ∧
    (∀ v t tt : Nat, t ≤ tt → scoreFromViolations 0 v t ≤ scoreFromViolations 0 v tt) ∧
    (∀ m : Nat, bandV1 0 m = 10) ∧
    (∀ v vv m : Nat, v ≤ vv → bandV1 vv m ≤ bandV1 v m) ∧
    (bandV1 7 10 = 4 ∧ bandV1 63 90 = 3) := by
  refine ⟨scoreFromViolations_ratio_determined, ?_, ?_, ?_, ?_, ?_, ?_, by decide, by decide⟩
  · intro t
    unfold scoreFromViolations
    rw [if_neg (by omega), if_neg (by omega), if_neg (by omega), if_pos rfl]
  · intro v t ht hr
    unfold scoreFromViolations
    split_ifs <;> first | omega | exact False.elim (by assumption)
  · intro v vv t h
    unfold scoreFromViolations
    split_ifs <;> omega
  · intro v t tt h
    unfold scoreFromViolations
    split_ifs <;> omega
  · intro m
    unfold bandV1
    rw [if_pos rfl]
  · intro v vv m h
    unfold bandV1
    split_ifs <;> omega

/-- C3 amended witness at concrete ratios. -/
theorem C3_amended_witness :
    scoreFromViolations 0 1 20 = scoreFromViolations 0 2 40 ∧
    scoreFromViolations 0 0 5 = 10 ∧
    scoreFromViolations 0 3 5 = 4 ∧
    bandV1 3 10 ≤ bandV1 1 10 :=
  ⟨C3_amended.1 1 20 2 40 (by decide) (by decide) (by decide),
   C3_amended.2.1 5,
   C3_amended.2.2.1 3 5 (by decide) (by decide),
   C3_amended.2.2.2.2.2.2.1 1 3 10 (by decide)⟩

/-! ### Claim C9 -/

/-- The v1 objective inference depends only on the membership predicate of
the tactic list. -/
lemma inferFromTacticsV1_congr {l1 l2 : List String} (h : ∀ t, t ∈ l1 ↔ t ∈ l2) :
    inferFromTacticsV1 l1 = inferFromTacticsV1 l2 := by
  unfold inferFromTacticsV1
  simp only [h]

/-- The v2 objective inference depends only on the membership predicate of
the tactic list. -/
lemma inferObjectivesV2_congr {l1 l2 : List String} (h : ∀ t, t ∈ l1 ↔ t ∈ l2) :
    inferObjectivesV2 l1 = inferObjectivesV2 l2 := by
  unfold inferObjectivesV2
  simp only [h]

/-- C9 counterexample: an empty-string candidate and a candidate with no
recognizable techniques have the same (empty) set of resolved tactics, yet
the classifiers answer `No` for the former and `Yes` for the latter: the
result is not a function of the resolved tactic sets alone, because the
missing/empty guard inspects the raw candidate. -/
theorem C9_counterexample :
    tacticsOfV1 (some "") = [] ∧
    tacticsOfV1 (some "xyz") = [] ∧
    tacticsOfV2 (some "") = [] ∧
    tacticsOfV2 (some "xyz") = [] ∧
    evaluate_same_objective (some "T1560") (some "") "Turla" = "No" ∧
    evaluate_same_objective (some "T1560") (some "xyz") "Turla" = "Yes" ∧
    determine_same_objective (some "T1560") (some "") "Turla" = "No" ∧
    determine_same_objective (some "T1560") (some "xyz") "Turla" = "Yes" := by
  refine ⟨by decide, by decide, by decide, by decide, by decide, by decide, by decide, by decide⟩

/-- C9 amended: provided both candidates are present and non-empty strings,
the Objective Classifiers' answers agree whenever the two seeds and the two
candidates resolve to the same tactic sets (in particular under reordering
or duplication of techniques): the decision depends only on each side's
resolved tactic set. -/
theorem C9_amended (seed1 seed2 cand1 cand2 : Option String) (apt : String)
    (hc1 : cand1 ≠ none) (hc1e : cand1 ≠ some "")
    (hc2 : cand2 ≠ none) (hc2e : cand2 ≠ some "")
    (hs1 : ∀ t, t ∈ tacticsOfV1 seed1 ↔ t ∈ tacticsOfV1 seed2)
    (hcand1 : ∀ t, t ∈ tacticsOfV1 cand1 ↔ t ∈ tacticsOfV1 cand2)
    (hs2 : ∀ t, t ∈ tacticsOfV2 seed1 ↔ t ∈ tacticsOfV2 seed2)
    (hcand2 : ∀ t, t ∈ tacticsOfV2 cand1 ↔ t ∈ tacticsOfV2 cand2) :
    evaluate_same_objective seed1 cand1 apt = evaluate_same_objective seed2 cand2 apt ∧
    determine_same_objective seed1 cand1 apt = determine_same_objective seed2 cand2 apt := by
  have hn1 : ¬(cand1 = none ∨ cand1 = some "") := by
    rintro (h | h)
    · exact hc1 h
    · exact hc1e h
  have hn2 : ¬(cand2 = none ∨ cand2 = some "") := by
    rintro (h | h)
    · exact hc2 h
    · exact hc2e h
  constructor
  · unfold evaluate_same_objective
    rw [if_neg hn1, if_neg hn2]
    rw [show infer_objective_from_sequence seed1 = infer_objective_from_sequence seed2 from
        inferFromTacticsV1_congr hs1,
      show infer_objective_from_sequence cand1 = infer_objective_from_sequence cand2 from
        inferFromTacticsV1_congr hcand1]
  · unfold determine_same_objective
    rw [if_neg hn1, if_neg hn2]
    rw [inferObjectivesV2_congr hs2, inferObjectivesV2_congr hcand2]

/-- C9 amended witness: duplicating techniques inside seed and candidate
does not change either classifier's answer. -/
theorem C9_amended_witness :
    evaluate_same_objective (some "T1560 T1560") (some "T1041 T1041") "Turla" =
      evaluate_same_objective (some "T1560") (some "T1041") "Turla" ∧
    determine_same_objective (some "T1560 T1560") (some "T1041 T1041") "Turla" =
      determine_same_objective (some "T1560") (some "T1041") "Turla" :=
  C9_amended (some "T1560 T1560") (some "T1560") (some "T1041 T1041") (some "T1041") "Turla"
    (by simp) (by simp) (by simp) (by simp)
    (by
      have e1 : tacticsOfV1 (some "T1560 T1560") = ["collection", "collection"] := by decide
      have e2 : tacticsOfV1 (some "T1560") = ["collection"] := by decide
      intro t
      rw [e1, e2]
      simp)
    (by
      have e1 : tacticsOfV1 (some "T1041 T1041") = ["exfiltration", "exfiltration"] := by decide
      have e2 : tacticsOfV1 (some "T1041") = ["exfiltration"] := by decide
      intro t
      rw [e1, e2]
      simp)
    (by
      have e1 : tacticsOfV2 (some "T1560 T1560") = ["collection", "collection"] := by decide
      have e2 : tacticsOfV2 (some "T1560") = ["collection"] := by decide
      intro t
      rw [e1, e2]
      simp)
    (by
      have e1 : tacticsOfV2 (some "T1041 T1041") = ["exfiltration", "exfiltration"] := by decide
      have e2 : tacticsOfV2 (some "T1041") = ["exfiltration"] := by decide
      intro t
      rw [e1, e2]
      simp)
